import Mathlib

/-!
Shallow embedding of the authentication/authorization core of the VISTA
backend: `backend/utils/dependencies.py`, `backend/middleware/auth.py`,
`backend/core/group_auth.py` and `backend/core/group_auth_helper.py`.

Python `str` and `bytes` values are modelled as `List Char`; individual byte
values as `Nat` (kept below 256).  Cryptographic primitives of the Python
standard library (`hashlib.pbkdf2_hmac`, HMAC-SHA256), `datetime.fromisoformat`
and the `json` module are external collaborators of the code under analysis and
appear as explicit function parameters; everything else is translated directly
from the source files.
-/

/-- Lowercase hex digit for a value below 16, as produced by Python
`bytes.hex()` and `hexdigest()`. -/
def hexDigitChar (n : Nat) : Char :=
  (("0123456789abcdef").data).getD n '0'

/-- Value of one hex digit character; `none` for a non-hex character.
Mirrors the per-character behaviour of Python `bytes.fromhex` (which accepts
both lowercase and uppercase digits and raises `ValueError` otherwise). -/
def hexDigitVal (c : Char) : Option Nat :=
  if c.isDigit then some (c.toNat - 48)
  else if 'a' ≤ c ∧ c ≤ 'f' then some (c.toNat - 87)
  else if 'A' ≤ c ∧ c ≤ 'F' then some (c.toNat - 55)
  else none

/-- Hex encoding of a byte string, two lowercase digits per byte:
Python `bytes.hex()`. -/
def hexEncode : List Nat → List Char
  | [] => []
  | b :: rest => hexDigitChar (b / 16) :: hexDigitChar (b % 16) :: hexEncode rest

/-- The ASCII whitespace characters `bytes.fromhex` skips: space, tab,
newline, vertical tab, form feed, carriage return. -/
def isPyAsciiWhitespace (c : Char) : Bool :=
  c = ' ' || c = '\t' || c = '\n' || c = Char.ofNat 11 || c = Char.ofNat 12 || c = '\r'

/-- Decoding of a hex string into bytes: Python `bytes.fromhex`, modelled as a
total function returning `none` where Python raises `ValueError`.  ASCII
whitespace is skipped between byte pairs; each byte must then be two
consecutive hex digits (a lone digit, a digit pair split by whitespace, or a
non-hex character is an error). -/
def fromHex : List Char → Option (List Nat)
  | [] => some []
  | c :: rest =>
    if isPyAsciiWhitespace c then fromHex rest
    else
      match rest with
      | [] => none
      | c₂ :: rest₂ =>
        match hexDigitVal c, hexDigitVal c₂, fromHex rest₂ with
        | some h, some l, some bs => some ((16 * h + l) :: bs)
        | _, _, _ => none

theorem hexDigitVal_hexDigitChar : ∀ n < 16, hexDigitVal (hexDigitChar n) = some n := by
  decide

theorem hexDigitChar_not_whitespace : ∀ n < 16,
    isPyAsciiWhitespace (hexDigitChar n) = false := by
  decide

theorem hexEncode_length (bs : List Nat) : (hexEncode bs).length = 2 * bs.length := by
  induction bs with
  | nil => rfl
  | cons b rest ih => simp [hexEncode, ih]; omega

theorem fromHex_hexEncode (bs : List Nat) (h : ∀ b ∈ bs, b < 256) :
    fromHex (hexEncode bs) = some bs := by
  induction bs with
  | nil => rfl
  | cons b rest ih =>
    have hb : b < 256 := h b (by simp)
    have h₁ : b / 16 < 16 := by omega
    have h₂ : b % 16 < 16 := Nat.mod_lt _ (by omega)
    simp only [hexEncode, fromHex, hexDigitChar_not_whitespace _ h₁,
      hexDigitVal_hexDigitChar _ h₁, hexDigitVal_hexDigitChar _ h₂,
      ih (fun x hx => h x (List.mem_cons_of_mem _ hx)), Bool.false_eq_true, if_false]
    have : 16 * (b / 16) + b % 16 = b := by omega
    simp [this]

theorem fromHex_length : ∀ (l : List Char) (bs : List Nat),
    (∀ c ∈ l, isPyAsciiWhitespace c = false) →
    fromHex l = some bs → l.length = 2 * bs.length
  | [], bs => by intro _ h; simp only [fromHex, Option.some.injEq] at h; simp [← h]
  | c :: rest, bs => by
    intro hws h
    have hc : isPyAsciiWhitespace c = false := hws c (List.mem_cons_self c rest)
    cases rest with
    | nil => simp [fromHex, hc] at h
    | cons c₂ rest₂ =>
      simp only [fromHex, hc, Bool.false_eq_true, if_false] at h
      cases h₁ : hexDigitVal c with
      | none => rw [h₁] at h; simp at h
      | some v₁ =>
        cases h₂ : hexDigitVal c₂ with
        | none => rw [h₁, h₂] at h; simp at h
        | some v₂ =>
          cases h₃ : fromHex rest₂ with
          | none => rw [h₁, h₂, h₃] at h; simp at h
          | some bs' =>
            rw [h₁, h₂, h₃] at h
            simp only [Option.some.injEq] at h
            have := fromHex_length rest₂ bs'
              (fun x hx => hws x (List.mem_cons_of_mem _ (List.mem_cons_of_mem _ hx))) h₃
            simp [← h, List.length_cons, this]
            omega

theorem fromHex_all_hex : ∀ (l : List Char) (bs : List Nat),
    (∀ c ∈ l, isPyAsciiWhitespace c = false) →
    fromHex l = some bs → ∀ c ∈ l, hexDigitVal c ≠ none
  | [], _ => by intro _ _ c hc; simp at hc
  | c :: rest, bs => by
    intro hws h d hd
    have hc : isPyAsciiWhitespace c = false := hws c (List.mem_cons_self c rest)
    cases rest with
    | nil => simp [fromHex, hc] at h
    | cons c₂ rest₂ =>
      simp only [fromHex, hc, Bool.false_eq_true, if_false] at h
      cases h₁ : hexDigitVal c with
      | none => rw [h₁] at h; simp at h
      | some v₁ =>
        cases h₂ : hexDigitVal c₂ with
        | none => rw [h₁, h₂] at h; simp at h
        | some v₂ =>
          cases h₃ : fromHex rest₂ with
          | none => rw [h₁, h₂, h₃] at h; simp at h
          | some bs' =>
            rcases List.mem_cons.mp hd with rfl | hd'
            · simp [h₁]
            · rcases List.mem_cons.mp hd' with rfl | hd''
              · simp [h₂]
              · exact fromHex_all_hex rest₂ bs'
                  (fun x hx => hws x (List.mem_cons_of_mem _ (List.mem_cons_of_mem _ hx)))
                  h₃ d hd''

/-! ## CredentialHasher (`backend/utils/dependencies.py`)

`hash_api_key` draws a fresh random 32-byte salt (`secrets.token_bytes(32)`);
the salt is an explicit argument here.  `hashlib.pbkdf2_hmac('sha256', key,
salt, iterations)` is the abstract parameter `pbkdf2` (its output is a 32-byte
string; theorems that need that fact take it as a hypothesis). -/

/-- `hash_api_key` from `backend/utils/dependencies.py`: PBKDF2-HMAC-SHA256 at
100000 iterations over a fresh salt, returning `salt.hex() + key.hex()`. -/
def hash_api_key (pbkdf2 : List Char → List Nat → Nat → List Nat)
    (api_key : List Char) (salt : List Nat) : List Char :=
  hexEncode salt ++ hexEncode (pbkdf2 api_key salt 100000)

/-- `verify_api_key` from `backend/utils/dependencies.py`: split the stored
hash into the first 64 hex characters (salt) and the rest (derived key),
re-derive and compare with `secrets.compare_digest`.  The Python `try/except`
around `bytes.fromhex` is the `none` branch. -/
def verify_api_key (pbkdf2 : List Char → List Nat → Nat → List Nat)
    (api_key : List Char) (stored_hash : List Char) : Bool :=
  let salt_hex := stored_hash.take 64
  let hash_hex := stored_hash.drop 64
  match fromHex salt_hex, fromHex hash_hex with
  | some salt, some stored_key => decide (pbkdf2 api_key salt 100000 = stored_key)
  | _, _ => false

/-- Claim C5: for every raw API key and every salt drawn, `verify(x, hash(x))`
returns true; the output of `hash` is always exactly 128 hex characters
(64 of salt, 64 of the 32-byte PBKDF2-HMAC-SHA256 key at 100000 iterations);
and distinct salts produce distinct hashes for the same key. -/
theorem claim_C5_hash_roundtrip
    (pbkdf2 : List Char → List Nat → Nat → List Nat)
    (hlen : ∀ k s, (pbkdf2 k s 100000).length = 32)
    (hbyte : ∀ k s, ∀ b ∈ pbkdf2 k s 100000, b < 256)
    (api_key : List Char) (salt : List Nat)
    (hs : salt.length = 32) (hsb : ∀ b ∈ salt, b < 256) :
    verify_api_key pbkdf2 api_key (hash_api_key pbkdf2 api_key salt) = true
    ∧ (hash_api_key pbkdf2 api_key salt).length = 128
    ∧ ∀ salt₂, salt₂.length = 32 → (∀ b ∈ salt₂, b < 256) → salt ≠ salt₂ →
        hash_api_key pbkdf2 api_key salt ≠ hash_api_key pbkdf2 api_key salt₂ := by
  have hsalt64 : (hexEncode salt).length = 64 := by rw [hexEncode_length, hs]
  have hkey64 : (hexEncode (pbkdf2 api_key salt 100000)).length = 64 := by
    rw [hexEncode_length, hlen]
  refine ⟨?_, ?_, ?_⟩
  · simp only [verify_api_key, hash_api_key]
    rw [List.take_left' hsalt64, List.drop_left' hsalt64,
      fromHex_hexEncode salt hsb, fromHex_hexEncode _ (hbyte api_key salt)]
    simp
  · unfold hash_api_key
    rw [List.length_append, hsalt64, hkey64]
  · intro salt₂ hs₂ hsb₂ hne heq
    have hsalt64' : (hexEncode salt₂).length = 64 := by rw [hexEncode_length, hs₂]
    have htake := congrArg (List.take 64) heq
    unfold hash_api_key at htake
    rw [List.take_left' hsalt64, List.take_left' hsalt64'] at htake
    have := congrArg fromHex htake
    rw [fromHex_hexEncode salt hsb, fromHex_hexEncode salt₂ hsb₂] at this
    exact hne (Option.some.inj this)

/-- Claim C5 witness: a concrete derived-key function, key and salts. -/
theorem claim_C5_hash_roundtrip_witness :
    verify_api_key (fun _ _ _ => List.replicate 32 0) ("k").data
        (hash_api_key (fun _ _ _ => List.replicate 32 0) ("k").data (List.replicate 32 1)) = true
    ∧ (hash_api_key (fun _ _ _ => List.replicate 32 0) ("k").data (List.replicate 32 1)).length = 128
    ∧ hash_api_key (fun _ _ _ => List.replicate 32 0) ("k").data (List.replicate 32 1)
        ≠ hash_api_key (fun _ _ _ => List.replicate 32 0) ("k").data (List.replicate 32 2) := by
  have h := claim_C5_hash_roundtrip (fun _ _ _ => List.replicate 32 0)
    (fun _ _ => List.length_replicate 32 0)
    (fun _ _ b hb => by rw [List.eq_of_mem_replicate hb]; omega)
    ("k").data (List.replicate 32 1) (List.length_replicate 32 1)
    (fun b hb => by rw [List.eq_of_mem_replicate hb]; omega)
  exact ⟨h.1, h.2.1, h.2.2 (List.replicate 32 2) (List.length_replicate 32 2)
    (fun b hb => by rw [List.eq_of_mem_replicate hb]; omega) (by decide)⟩

/-! ## HmacPipelineVerifier (`backend/utils/dependencies.py`)

`verify_hmac_signature(secret, body, timestamp, signature_header, skew_seconds)`.
The ISO-8601 branch of the timestamp parse (`datetime.fromisoformat` after the
`Z` replacement, `None` modelling the exception path) and the HMAC-SHA256 hex
digest `hmac.new(secret, msg, sha256).hexdigest()` are abstract parameters
`iso` and `hmacHex`.  `hmac.compare_digest` on two hexdigest strings is string
equality. -/

/-- Timestamp parsing of `verify_hmac_signature`: `int(timestamp)` when
`timestamp.isdigit()`, otherwise the ISO-8601 path. -/
def parseTimestamp (iso : List Char → Option Int) (timestamp : List Char) : Option Int :=
  if timestamp ≠ [] ∧ timestamp.all Char.isDigit then
    some ((timestamp.foldl (fun a c => 10 * a + (c.toNat - 48)) 0 : Nat) : Int)
  else iso timestamp

/-- `verify_hmac_signature` from `backend/utils/dependencies.py`: replay
protection via `abs(now - ts) > skew_seconds`, mandatory `sha256=` prefix,
HMAC-SHA256 over `timestamp + "." + body`, constant-time digest comparison
(`provided = signature_header.split('=', 1)[1]` is `drop 7` under the checked
prefix). -/
def verify_hmac_signature (iso : List Char → Option Int)
    (hmacHex : List Char → List Char → List Char)
    (secret body timestamp signature_header : List Char)
    (skew_seconds now : Int) : Bool :=
  match parseTimestamp iso timestamp with
  | none => false
  | some ts =>
    if |now - ts| > skew_seconds then false
    else if ("sha256=").data.isPrefixOf signature_header then
      decide (signature_header.drop 7 = hmacHex secret (timestamp ++ (".").data ++ body))
    else false

theorem verify_hmac_parse_none (iso hmacHex) (secret body timestamp sig : List Char)
    (skew now : Int) (h : parseTimestamp iso timestamp = none) :
    verify_hmac_signature iso hmacHex secret body timestamp sig skew now = false := by
  simp [verify_hmac_signature, h]

theorem verify_hmac_stale (iso hmacHex) (secret body timestamp sig : List Char)
    (skew now t : Int) (hparse : parseTimestamp iso timestamp = some t)
    (hskew : skew < |now - t|) :
    verify_hmac_signature iso hmacHex secret body timestamp sig skew now = false := by
  simp [verify_hmac_signature, hparse, hskew]

theorem verify_hmac_not_prefixed (iso hmacHex) (secret body timestamp sig : List Char)
    (skew now : Int) (h : ("sha256=").data.isPrefixOf sig = false) :
    verify_hmac_signature iso hmacHex secret body timestamp sig skew now = false := by
  simp only [verify_hmac_signature]
  cases hp : parseTimestamp iso timestamp with
  | none => rfl
  | some ts => simp [h]

theorem verify_hmac_correct (iso hmacHex) (secret body timestamp : List Char)
    (skew now t : Int) (hparse : parseTimestamp iso timestamp = some t)
    (hwin : |now - t| ≤ skew) :
    verify_hmac_signature iso hmacHex secret body timestamp
      (("sha256=").data ++ hmacHex secret (timestamp ++ (".").data ++ body))
      skew now = true := by
  simp only [verify_hmac_signature, hparse]
  rw [if_neg (not_lt.mpr hwin)]
  have hpre : ("sha256=").data.isPrefixOf
      (("sha256=").data ++ hmacHex secret (timestamp ++ (".").data ++ body)) = true :=
    List.isPrefixOf_iff_prefix.mpr (List.prefix_append _ _)
  have hdrop : (("sha256=").data
      ++ hmacHex secret (timestamp ++ (".").data ++ body)).drop 7
      = hmacHex secret (timestamp ++ (".").data ++ body) :=
    List.drop_left' (by decide)
  simp [hpre, hdrop]

theorem verify_hmac_true_elim (iso hmacHex) (secret body timestamp sig : List Char)
    (skew now : Int)
    (h : verify_hmac_signature iso hmacHex secret body timestamp sig skew now = true) :
    sig.drop 7 = hmacHex secret (timestamp ++ (".").data ++ body) := by
  simp only [verify_hmac_signature] at h
  split at h
  · exact absurd h (by simp)
  · split at h
    · exact absurd h (by simp)
    · split at h
      · exact of_decide_eq_true h
      · exact absurd h (by simp)

/-- Claim C2: HMAC verification returns true when the signature header equals
`"sha256="` followed by the digest, keyed by the secret, of
`timestamp + "." + body` and the timestamp lies within the skew window of the
current time; for a timestamp outside the window, in either direction, it
returns false even for an otherwise correct signature. -/
theorem claim_C2_hmac_window
    (iso : List Char → Option Int) (hmacHex : List Char → List Char → List Char)
    (secret body timestamp sig : List Char) (skew now t : Int)
    (hparse : parseTimestamp iso timestamp = some t) :
    (|now - t| ≤ skew →
      verify_hmac_signature iso hmacHex secret body timestamp
        (("sha256=").data ++ hmacHex secret (timestamp ++ (".").data ++ body))
        skew now = true)
    ∧ (skew < |now - t| →
      verify_hmac_signature iso hmacHex secret body timestamp sig skew now = false) :=
  ⟨fun hwin => verify_hmac_correct iso hmacHex secret body timestamp skew now t hparse hwin,
   fun hskew => verify_hmac_stale iso hmacHex secret body timestamp sig skew now t hparse hskew⟩

/-- Claim C2 witness: digit timestamp `100`, window 300; `now = 200` is inside
the window, `now = 1000` is a stale replay, `now = -250` is a too-far-future
timestamp. -/
theorem claim_C2_hmac_window_witness :
    verify_hmac_signature (fun _ => none) (fun _ m => m) ("k").data ("b").data ("100").data
      (("sha256=").data ++ (("100").data ++ (".").data ++ ("b").data)) 300 200 = true
    ∧ verify_hmac_signature (fun _ => none) (fun _ m => m) ("k").data ("b").data ("100").data
      (("sha256=").data ++ (("100").data ++ (".").data ++ ("b").data)) 300 1000 = false
    ∧ verify_hmac_signature (fun _ => none) (fun _ m => m) ("k").data ("b").data ("100").data
      (("sha256=").data ++ (("100").data ++ (".").data ++ ("b").data)) 300 (-250) = false :=
  ⟨(claim_C2_hmac_window (fun _ => none) (fun _ m => m) ("k").data ("b").data ("100").data
      [] 300 200 100 (by decide)).1 (by decide),
   (claim_C2_hmac_window (fun _ => none) (fun _ m => m) ("k").data ("b").data ("100").data
      (("sha256=").data ++ (("100").data ++ (".").data ++ ("b").data)) 300 1000 100
      (by decide)).2 (by decide),
   (claim_C2_hmac_window (fun _ => none) (fun _ m => m) ("k").data ("b").data ("100").data
      (("sha256=").data ++ (("100").data ++ (".").data ++ ("b").data)) 300 (-250) 100
      (by decide)).2 (by decide)⟩

set_option maxRecDepth 8192 in
/-- Claim C4 counterexample: a stored hash of a correct salt and derived key
with one trailing space — 129 characters (wrong length) containing a non-hex
character — still verifies TRUE, because `bytes.fromhex` skips ASCII
whitespace when decoding the key half.  The claim's "returns false on a
malformed stored hash (wrong length, truncated, non-hex)" is therefore false
of the code as stated. -/
theorem claim_C4_counterexample :
    (hexEncode (List.replicate 32 1) ++ hexEncode (List.replicate 32 0)
      ++ [' ']).length ≠ 128
    ∧ ' ' ∈ hexEncode (List.replicate 32 1) ++ hexEncode (List.replicate 32 0) ++ [' ']
    ∧ hexDigitVal ' ' = none
    ∧ verify_api_key (fun _ _ _ => List.replicate 32 0) ("k").data
        (hexEncode (List.replicate 32 1) ++ hexEncode (List.replicate 32 0) ++ [' '])
        = true := by
  refine ⟨by decide, by decide, by decide, by decide⟩

/-- Claim C4, amended: the verification functions are total.  API-key
verification returns false (never raises) on a malformed stored hash — wrong
length (anything other than 128 characters, including truncation) or a
non-hex character — provided the stored hash contains no ASCII whitespace,
which `bytes.fromhex` skips (a whitespace-padded otherwise-correct hash can
still verify true); and HMAC verification returns false (never raises) on an
unparseable timestamp or a signature header not prefixed with `"sha256="`. -/
theorem claim_C4_verification_total :
    (∀ (pbkdf2 : List Char → List Nat → Nat → List Nat) (api_key stored : List Char),
       (∀ k s, (pbkdf2 k s 100000).length = 32) →
       (∀ c ∈ stored, isPyAsciiWhitespace c = false) → stored.length ≠ 128 →
       verify_api_key pbkdf2 api_key stored = false)
    ∧ (∀ (pbkdf2 : List Char → List Nat → Nat → List Nat) (api_key stored : List Char)
         (c : Char),
       (∀ c' ∈ stored, isPyAsciiWhitespace c' = false) →
       c ∈ stored → hexDigitVal c = none →
       verify_api_key pbkdf2 api_key stored = false)
    ∧ (∀ (iso : List Char → Option Int) (hmacHex : List Char → List Char → List Char)
         (secret body timestamp sig : List Char) (skew now : Int),
       parseTimestamp iso timestamp = none →
       verify_hmac_signature iso hmacHex secret body timestamp sig skew now = false)
    ∧ (∀ (iso : List Char → Option Int) (hmacHex : List Char → List Char → List Char)
         (secret body timestamp sig : List Char) (skew now : Int),
       ("sha256=").data.isPrefixOf sig = false →
       verify_hmac_signature iso hmacHex secret body timestamp sig skew now = false) := by
  refine ⟨?_, ?_, ?_, ?_⟩
  · intro pbkdf2 api_key stored hlen hws hne
    simp only [verify_api_key]
    cases h₁ : fromHex (stored.take 64) with
    | none => rfl
    | some salt =>
      cases h₂ : fromHex (stored.drop 64) with
      | none => rfl
      | some stored_key =>
        simp only [decide_eq_false_iff_not]
        intro heq
        have hk : stored_key.length = 32 := by rw [← heq, hlen]
        have hl := fromHex_length _ _
          (fun x hx => hws x (List.mem_of_mem_drop hx)) h₂
        rw [List.length_drop, hk] at hl
        omega
  · intro pbkdf2 api_key stored c hws hc hval
    rw [← List.take_append_drop 64 stored] at hc
    simp only [verify_api_key]
    cases h₁ : fromHex (stored.take 64) with
    | none => rfl
    | some salt =>
      cases h₂ : fromHex (stored.drop 64) with
      | none => rfl
      | some stored_key =>
        rcases List.mem_append.mp hc with hct | hcd
        · exact absurd hval (fromHex_all_hex _ _
            (fun x hx => hws x (List.mem_of_mem_take hx)) h₁ c hct)
        · exact absurd hval (fromHex_all_hex _ _
            (fun x hx => hws x (List.mem_of_mem_drop hx)) h₂ c hcd)
  · intro iso hmacHex secret body timestamp sig skew now h
    exact verify_hmac_parse_none iso hmacHex secret body timestamp sig skew now h
  · intro iso hmacHex secret body timestamp sig skew now h
    exact verify_hmac_not_prefixed iso hmacHex secret body timestamp sig skew now h

/-- Claim C4 witness for the amended statement: a truncated stored hash and a
non-hex stored hash (both whitespace-free), a non-numeric timestamp, and a
signature header with the wrong prefix. -/
theorem claim_C4_verification_total_witness :
    verify_api_key (fun _ _ _ => List.replicate 32 0) ("k").data ("abcd").data = false
    ∧ verify_api_key (fun _ _ _ => List.replicate 32 0) ("k").data ("zz").data = false
    ∧ verify_hmac_signature (fun _ => none) (fun _ m => m) ("k").data ("b").data
        ("not-a-time").data (("sha256=").data ++ ("x").data) 300 0 = false
    ∧ verify_hmac_signature (fun _ => none) (fun _ m => m) ("k").data ("b").data
        ("100").data ("bad").data 300 100 = false :=
  ⟨claim_C4_verification_total.1 (fun _ _ _ => List.replicate 32 0) ("k").data ("abcd").data
      (fun _ _ => List.length_replicate 32 0) (by decide) (by decide),
   claim_C4_verification_total.2.1 (fun _ _ _ => List.replicate 32 0) ("k").data ("zz").data
      'z' (by decide) (by decide) (by decide),
   claim_C4_verification_total.2.2.1 (fun _ => none) (fun _ m => m) ("k").data ("b").data
      ("not-a-time").data (("sha256=").data ++ ("x").data) 300 0 (by decide),
   claim_C4_verification_total.2.2.2 (fun _ => none) (fun _ m => m) ("k").data ("b").data
      ("100").data ("bad").data 300 100 (by decide)⟩

/-- `verify_hmac_signature_flexible` from `backend/utils/dependencies.py`:
primary check over the raw body; if that fails and the body parses as JSON
(`json.loads`, the abstract parameter `loads`, `none` modelling the exception
path), retry the same signature check over the canonical re-serialization
`json.dumps(obj, sort_keys=True, separators=(',', ':'))` (the abstract
parameter `dumps`). -/
def verify_hmac_signature_flexible {α : Type} (iso : List Char → Option Int)
    (hmacHex : List Char → List Char → List Char)
    (loads : List Char → Option α) (dumps : α → List Char)
    (secret body timestamp signature_header : List Char)
    (skew_seconds now : Int) : Bool :=
  if verify_hmac_signature iso hmacHex secret body timestamp signature_header
      skew_seconds now then true
  else
    match loads body with
    | some obj =>
      verify_hmac_signature iso hmacHex secret (dumps obj) timestamp signature_header
        skew_seconds now
    | none => false

/-- Concrete stand-in for `json.loads` on the three byte strings the C3
counterexample uses: `[1, 2]` and `[1,2]` parse to the same value, `[1,3]` to a
different one — exactly what `json.loads` does on these inputs. -/
def cexLoads : List Char → Option Nat := fun s =>
  if s = ("[1, 2]").data ∨ s = ("[1,2]").data then some 0
  else if s = ("[1,3]").data then some 1 else none

/-- Concrete stand-in for canonical `json.dumps` on the values of `cexLoads`:
minimal separators, so value `0` prints as `[1,2]`. -/
def cexDumps : Nat → List Char := fun v =>
  if v = 0 then ("[1,2]").data else ("[1,3]").data

/-- Claim C3 counterexample: the body `[1,2]` (canonical form) and the
signature computed over the differently-formatted but semantically identical
encoding `[1, 2]` of the same payload.  The claim says this "verifies true";
the flexible verifier returns false, because the fallback re-checks against the
canonical serialization, which does not match a signature taken over a
non-canonical encoding.  (The digest stand-in is injective, as a collision-free
HMAC.) -/
theorem claim_C3_counterexample :
    cexLoads ("[1,2]").data = some 0
    ∧ cexLoads ("[1, 2]").data = some 0
    ∧ ("[1, 2]").data ≠ ("[1,2]").data
    ∧ verify_hmac_signature_flexible (fun _ => none) (fun _ m => m) cexLoads cexDumps
        ("k").data ("[1,2]").data ("0").data
        (("sha256=").data ++ (("0").data ++ (".").data ++ ("[1, 2]").data)) 300 0 = false := by
  refine ⟨by decide, by decide, by decide, by decide⟩

/-- Claim C3, amended: if the primary check fails and the body parses as JSON,
the verifier retries the same check over the canonical re-serialization.
Hence a signature computed over the CANONICAL serialization of the payload
verifies true for any semantically identical body encoding; for a
collision-free digest, a signature computed over different JSON content fails
regardless of formatting; and a non-JSON body whose primary check fails yields
false. -/
theorem claim_C3_flexible_fallback {α : Type} (iso : List Char → Option Int)
    (hmacHex : List Char → List Char → List Char)
    (loads : List Char → Option α) (dumps : α → List Char)
    (secret body other timestamp sig : List Char) (skew now t : Int) (vB vE : α) :
    (parseTimestamp iso timestamp = some t → |now - t| ≤ skew →
      loads body = some vB →
      verify_hmac_signature_flexible iso hmacHex loads dumps secret body timestamp
        (("sha256=").data ++ hmacHex secret (timestamp ++ (".").data ++ dumps vB))
        skew now = true)
    ∧ ((∀ m₁ m₂, hmacHex secret m₁ = hmacHex secret m₂ → m₁ = m₂) →
      loads (dumps vB) = some vB →
      loads body = some vB → loads other = some vE → vE ≠ vB →
      verify_hmac_signature_flexible iso hmacHex loads dumps secret body timestamp
        (("sha256=").data ++ hmacHex secret (timestamp ++ (".").data ++ other))
        skew now = false)
    ∧ (loads body = none →
      verify_hmac_signature iso hmacHex secret body timestamp sig skew now = false →
      verify_hmac_signature_flexible iso hmacHex loads dumps secret body timestamp sig
        skew now = false) := by
  refine ⟨?_, ?_, ?_⟩
  · intro hparse hwin hb
    simp only [verify_hmac_signature_flexible]
    by_cases hpr : verify_hmac_signature iso hmacHex secret body timestamp
        (("sha256=").data ++ hmacHex secret (timestamp ++ (".").data ++ dumps vB))
        skew now = true
    · rw [if_pos hpr]
    · rw [if_neg hpr, hb]
      exact verify_hmac_correct iso hmacHex secret (dumps vB) timestamp skew now t hparse hwin
  · intro hinj hcanon hb hE hne
    have hprim : verify_hmac_signature iso hmacHex secret body timestamp
        (("sha256=").data ++ hmacHex secret (timestamp ++ (".").data ++ other))
        skew now = false := by
      by_contra h
      rw [Bool.not_eq_false] at h
      have hd := verify_hmac_true_elim iso hmacHex secret body timestamp _ skew now h
      rw [List.drop_left' (show (("sha256=").data).length = 7 by decide)] at hd
      have h2 := List.append_cancel_left (hinj _ _ hd)
      rw [h2, hb] at hE
      exact hne (Option.some.inj hE).symm
    have hfall : verify_hmac_signature iso hmacHex secret (dumps vB) timestamp
        (("sha256=").data ++ hmacHex secret (timestamp ++ (".").data ++ other))
        skew now = false := by
      by_contra h
      rw [Bool.not_eq_false] at h
      have hd := verify_hmac_true_elim iso hmacHex secret (dumps vB) timestamp _ skew now h
      rw [List.drop_left' (show (("sha256=").data).length = 7 by decide)] at hd
      have h2 := List.append_cancel_left (hinj _ _ hd)
      rw [h2, hcanon] at hE
      exact hne (Option.some.inj hE).symm
    simp only [verify_hmac_signature_flexible]
    rw [if_neg (by rw [hprim]; simp), hb]
    exact hfall
  · intro hb hfail
    simp [verify_hmac_signature_flexible, hfail, hb]

/-- Claim C3 witness for the amended statement: the fallback accepts a
canonical-form signature on a re-formatted body, rejects a signature over
different content, and rejects a failing non-JSON body. -/
theorem claim_C3_flexible_fallback_witness :
    verify_hmac_signature_flexible (fun _ => none) (fun _ m => m) cexLoads cexDumps
      ("k").data ("[1, 2]").data ("0").data
      (("sha256=").data ++ (("0").data ++ (".").data ++ ("[1,2]").data)) 300 0 = true
    ∧ verify_hmac_signature_flexible (fun _ => none) (fun _ m => m) cexLoads cexDumps
      ("k").data ("[1,2]").data ("0").data
      (("sha256=").data ++ (("0").data ++ (".").data ++ ("[1,3]").data)) 300 0 = false
    ∧ verify_hmac_signature_flexible (fun _ => none) (fun _ m => m) cexLoads cexDumps
      ("k").data ("x").data ("0").data ("bad").data 300 0 = false :=
  ⟨(claim_C3_flexible_fallback (fun _ => none) (fun _ m => m) cexLoads cexDumps
      ("k").data ("[1, 2]").data [] ("0").data [] 300 0 0 0 0).1
      (by decide) (by decide) (by decide),
   (claim_C3_flexible_fallback (fun _ => none) (fun _ m => m) cexLoads cexDumps
      ("k").data ("[1,2]").data ("[1,3]").data ("0").data [] 300 0 0 0 1).2.1
      (fun _ _ h => h) (by decide) (by decide) (by decide) (by decide),
   (claim_C3_flexible_fallback (fun _ => none) (fun _ m => m) cexLoads cexDumps
      ("k").data ("x").data [] ("0").data ("bad").data 300 0 0 0 0).2.2
      (by decide) (by decide)⟩

/-! ## ApiKeyAuthenticator and dual-factor pipeline auth
(`backend/utils/dependencies.py`)

`get_user_from_api_key` scans the active API-key records; the user attached to
a record is opaque here (type parameter `U`).  `require_hmac_auth` receives the
result of the `get_current_user_from_api_key_only` dependency, exactly as
FastAPI resolves it before the function body runs.  HTTP outcomes are
`Except.error status` / `Except.ok user`. -/

/-- One active API-key record (`models.APIKey` joined with its user):
`key_hash` is the stored salted hash, `user` the owning identity. -/
structure ApiKeyRecord (U : Type) where
  key_hash : List Char
  user : U

/-- `get_user_from_api_key`: with no bearer credentials return `None`;
otherwise verify the presented token against each active record and return the
first match's user (the `last_used` update is a side effect with no bearing on
the decision). -/
def get_user_from_api_key {U : Type} (pbkdf2 : List Char → List Nat → Nat → List Nat)
    (token : Option (List Char)) (api_keys : List (ApiKeyRecord U)) : Option U :=
  match token with
  | none => none
  | some t => (api_keys.find? (fun r => verify_api_key pbkdf2 t r.key_hash)).map ApiKeyRecord.user

/-- `get_current_user_from_api_key_only`: resolve the user from the API key
alone; raise 401 when there is none (header identities are not accepted). -/
def get_current_user_from_api_key_only {U : Type} (api_user : Option U) : Except Nat U :=
  match api_user with
  | none => Except.error 401
  | some u => Except.ok u

/-- The configuration fields `require_hmac_auth` reads.  An unset
`ML_CALLBACK_HMAC_SECRET` is the empty (falsy) string. -/
structure PipelineSettings where
  ML_PIPELINE_REQUIRE_HMAC : Bool
  ML_CALLBACK_HMAC_SECRET : List Char
  ML_HMAC_TIMESTAMP_SKEW_SECONDS : Int

/-- `require_hmac_auth` from `backend/utils/dependencies.py`: the API-key-only
user dependency resolves first (401 with no valid key); if HMAC enforcement is
disabled by configuration the user is accepted as is; an enforced HMAC with no
configured secret is a 500; otherwise the `X-ML-Signature` header (default
`""`) and `X-ML-Timestamp` header (default `"0"`) are verified flexibly over
the cached raw body. -/
def require_hmac_auth {α U : Type} (iso : List Char → Option Int)
    (hmacHex : List Char → List Char → List Char)
    (loads : List Char → Option α) (dumps : α → List Char)
    (st : PipelineSettings) (sig_header ts_header : Option (List Char))
    (body : List Char) (now : Int) (api_user : Option U) : Except Nat U :=
  match get_current_user_from_api_key_only api_user with
  | Except.error e => Except.error e
  | Except.ok current_user =>
    if !st.ML_PIPELINE_REQUIRE_HMAC then Except.ok current_user
    else if st.ML_CALLBACK_HMAC_SECRET = [] then Except.error 500
    else
      let signature := sig_header.getD []
      let timestamp := ts_header.getD (("0").data)
      if verify_hmac_signature_flexible iso hmacHex loads dumps
          st.ML_CALLBACK_HMAC_SECRET body timestamp signature
          st.ML_HMAC_TIMESTAMP_SKEW_SECONDS now
      then Except.ok current_user
      else Except.error 401

/-- The full dual-factor pipeline chain: identity via API-key scan, then
`require_hmac_auth`. -/
def require_dual_auth {α U : Type} (pbkdf2 : List Char → List Nat → Nat → List Nat)
    (iso : List Char → Option Int) (hmacHex : List Char → List Char → List Char)
    (loads : List Char → Option α) (dumps : α → List Char)
    (st : PipelineSettings) (token : Option (List Char))
    (api_keys : List (ApiKeyRecord U)) (sig_header ts_header : Option (List Char))
    (body : List Char) (now : Int) : Except Nat U :=
  require_hmac_auth iso hmacHex loads dumps st sig_header ts_header body now
    (get_user_from_api_key pbkdf2 token api_keys)

theorem flexible_not_prefixed {α : Type} (iso : List Char → Option Int)
    (hmacHex : List Char → List Char → List Char)
    (loads : List Char → Option α) (dumps : α → List Char)
    (secret body timestamp sig : List Char) (skew now : Int)
    (h : ("sha256=").data.isPrefixOf sig = false) :
    verify_hmac_signature_flexible iso hmacHex loads dumps secret body timestamp sig
      skew now = false := by
  have h1 := verify_hmac_not_prefixed iso hmacHex secret body timestamp sig skew now h
  simp only [verify_hmac_signature_flexible]
  rw [if_neg (by rw [h1]; simp)]
  cases hl : loads body with
  | none => rfl
  | some obj => exact verify_hmac_not_prefixed iso hmacHex secret (dumps obj) timestamp sig skew now h

/-- Claim C1: dual-factor pipeline authentication succeeds only with both
factors.  No valid API key → 401 regardless of any signature; valid API key
with missing or invalid signature while HMAC enforcement is enabled (and its
secret configured) → 401; both factors valid → the user; enforcement disabled
by configuration → a valid API key alone suffices. -/
theorem claim_C1_dual_auth {α U : Type} (pbkdf2 : List Char → List Nat → Nat → List Nat)
    (iso : List Char → Option Int) (hmacHex : List Char → List Char → List Char)
    (loads : List Char → Option α) (dumps : α → List Char)
    (st : PipelineSettings) (token : Option (List Char))
    (api_keys : List (ApiKeyRecord U)) (sig_header ts_header : Option (List Char))
    (body : List Char) (now : Int) (u : U) :
    (get_user_from_api_key pbkdf2 token api_keys = none →
      require_dual_auth pbkdf2 iso hmacHex loads dumps st token api_keys
        sig_header ts_header body now = Except.error 401)
    ∧ (get_user_from_api_key pbkdf2 token api_keys = some u →
      st.ML_PIPELINE_REQUIRE_HMAC = true → st.ML_CALLBACK_HMAC_SECRET ≠ [] →
      sig_header = none →
      require_dual_auth pbkdf2 iso hmacHex loads dumps st token api_keys
        sig_header ts_header body now = Except.error 401)
    ∧ (get_user_from_api_key pbkdf2 token api_keys = some u →
      st.ML_PIPELINE_REQUIRE_HMAC = true → st.ML_CALLBACK_HMAC_SECRET ≠ [] →
      verify_hmac_signature_flexible iso hmacHex loads dumps
        st.ML_CALLBACK_HMAC_SECRET body (ts_header.getD (("0").data))
        (sig_header.getD []) st.ML_HMAC_TIMESTAMP_SKEW_SECONDS now = false →
      require_dual_auth pbkdf2 iso hmacHex loads dumps st token api_keys
        sig_header ts_header body now = Except.error 401)
    ∧ (get_user_from_api_key pbkdf2 token api_keys = some u →
      st.ML_PIPELINE_REQUIRE_HMAC = true → st.ML_CALLBACK_HMAC_SECRET ≠ [] →
      verify_hmac_signature_flexible iso hmacHex loads dumps
        st.ML_CALLBACK_HMAC_SECRET body (ts_header.getD (("0").data))
        (sig_header.getD []) st.ML_HMAC_TIMESTAMP_SKEW_SECONDS now = true →
      require_dual_auth pbkdf2 iso hmacHex loads dumps st token api_keys
        sig_header ts_header body now = Except.ok u)
    ∧ (get_user_from_api_key pbkdf2 token api_keys = some u →
      st.ML_PIPELINE_REQUIRE_HMAC = false →
      require_dual_auth pbkdf2 iso hmacHex loads dumps st token api_keys
        sig_header ts_header body now = Except.ok u) := by
  refine ⟨?_, ?_, ?_, ?_, ?_⟩
  · intro h
    unfold require_dual_auth require_hmac_auth
    rw [h]
    rfl
  · intro hu hreq hsec hsig
    unfold require_dual_auth require_hmac_auth
    rw [hu, hsig]
    simp only [get_current_user_from_api_key_only, hreq, Bool.not_true, Bool.false_eq_true,
      if_false]
    rw [if_neg hsec]
    rw [if_neg (by rw [flexible_not_prefixed iso hmacHex loads dumps _ body _ _ _ now
      (by decide)]; simp)]
  · intro hu hreq hsec hbad
    unfold require_dual_auth require_hmac_auth
    rw [hu]
    simp only [get_current_user_from_api_key_only, hreq, Bool.not_true, Bool.false_eq_true,
      if_false]
    rw [if_neg hsec]
    rw [if_neg (by rw [hbad]; simp)]
  · intro hu hreq hsec hgood
    unfold require_dual_auth require_hmac_auth
    rw [hu]
    simp only [get_current_user_from_api_key_only, hreq, Bool.not_true, Bool.false_eq_true,
      if_false]
    rw [if_neg hsec]
    rw [if_pos hgood]
  · intro hu hreq
    unfold require_dual_auth require_hmac_auth
    rw [hu]
    simp [get_current_user_from_api_key_only, hreq]

/-- Claim C1 witness: a concrete key store, token, configuration and signed
request exercising all four outcomes. -/
theorem claim_C1_dual_auth_witness :
    require_dual_auth (fun _ _ _ => []) (fun _ => none) (fun _ m => m)
      (fun _ => (none : Option Nat)) (fun _ => []) ⟨true, ("k").data, 300⟩
      (some ("t").data) ([] : List (ApiKeyRecord Nat))
      (some (("sha256=").data ++ (("5").data ++ (".").data ++ ("b").data)))
      (some ("5").data) ("b").data 5 = Except.error 401
    ∧ require_dual_auth (fun _ _ _ => []) (fun _ => none) (fun _ m => m)
      (fun _ => (none : Option Nat)) (fun _ => []) ⟨true, ("k").data, 300⟩
      (some ("t").data) [ApiKeyRecord.mk [] 7] none (some ("5").data) ("b").data 5
      = Except.error 401
    ∧ require_dual_auth (fun _ _ _ => []) (fun _ => none) (fun _ m => m)
      (fun _ => (none : Option Nat)) (fun _ => []) ⟨true, ("k").data, 300⟩
      (some ("t").data) [ApiKeyRecord.mk [] 7] (some ("bad").data)
      (some ("5").data) ("b").data 5 = Except.error 401
    ∧ require_dual_auth (fun _ _ _ => []) (fun _ => none) (fun _ m => m)
      (fun _ => (none : Option Nat)) (fun _ => []) ⟨true, ("k").data, 300⟩
      (some ("t").data) [ApiKeyRecord.mk [] 7]
      (some (("sha256=").data ++ (("5").data ++ (".").data ++ ("b").data)))
      (some ("5").data) ("b").data 5 = Except.ok 7
    ∧ require_dual_auth (fun _ _ _ => []) (fun _ => none) (fun _ m => m)
      (fun _ => (none : Option Nat)) (fun _ => []) ⟨false, ("k").data, 300⟩
      (some ("t").data) [ApiKeyRecord.mk [] 7] none (some ("5").data) ("b").data 5
      = Except.ok 7 :=
  ⟨(claim_C1_dual_auth (fun _ _ _ => []) (fun _ => none) (fun _ m => m)
      (fun _ => (none : Option Nat)) (fun _ => []) ⟨true, ("k").data, 300⟩
      (some ("t").data) [] _ (some ("5").data) ("b").data 5 7).1 (by decide),
   (claim_C1_dual_auth (fun _ _ _ => []) (fun _ => none) (fun _ m => m)
      (fun _ => (none : Option Nat)) (fun _ => []) ⟨true, ("k").data, 300⟩
      (some ("t").data) [ApiKeyRecord.mk [] 7] none (some ("5").data) ("b").data 5
      7).2.1 (by decide) rfl (by decide) rfl,
   (claim_C1_dual_auth (fun _ _ _ => []) (fun _ => none) (fun _ m => m)
      (fun _ => (none : Option Nat)) (fun _ => []) ⟨true, ("k").data, 300⟩
      (some ("t").data) [ApiKeyRecord.mk [] 7] (some ("bad").data)
      (some ("5").data) ("b").data 5 7).2.2.1 (by decide) rfl (by decide) (by decide),
   (claim_C1_dual_auth (fun _ _ _ => []) (fun _ => none) (fun _ m => m)
      (fun _ => (none : Option Nat)) (fun _ => []) ⟨true, ("k").data, 300⟩
      (some ("t").data) [ApiKeyRecord.mk [] 7]
      (some (("sha256=").data ++ (("5").data ++ (".").data ++ ("b").data)))
      (some ("5").data) ("b").data 5 7).2.2.2.1 (by decide) rfl (by decide) (by decide),
   (claim_C1_dual_auth (fun _ _ _ => []) (fun _ => none) (fun _ m => m)
      (fun _ => (none : Option Nat)) (fun _ => []) ⟨false, ("k").data, 300⟩
      (some ("t").data) [ApiKeyRecord.mk [] 7] none (some ("5").data) ("b").data 5
      7).2.2.2.2 (by decide) rfl⟩

/-! ## IdentityResolver, header mode (`backend/middleware/auth.py`)

`auth_middleware` as a pure function of the configuration, the request path and
the two relevant header values (absent header = `none`; header names are
configurable and folded out).  The outcome is the returned JSON status or the
request state handed to the next handler.  Strings stay `String` here; the
email pattern is evaluated on `String.data`. -/

/-- Python `str.strip()` on the character sequence: whitespace removed from
both ends. -/
def pyStrip (l : List Char) : List Char :=
  ((l.dropWhile Char.isWhitespace).reverse.dropWhile Char.isWhitespace).reverse

/-- Python `str.lower()` on the character sequence (ASCII case fold). -/
def pyLower (l : List Char) : List Char :=
  l.map Char.toLower

/-- Python `str.startswith` via the character sequences. -/
def str_startsWith (s pre : String) : Bool :=
  pre.data.isPrefixOf s.data

/-- Character class `[a-zA-Z0-9._%+-]` of the local part of the email
pattern in `get_user_from_header`. -/
def isEmailLocalChar (c : Char) : Bool :=
  c.isAlpha || c.isDigit || c = '.' || c = '_' || c = '%' || c = '+' || c = '-'

/-- Character class `[a-zA-Z0-9.-]` of the domain part. -/
def isEmailDomainChar (c : Char) : Bool :=
  c.isAlpha || c.isDigit || c = '.' || c = '-'

/-- The anchored pattern `^[a-zA-Z0-9._%+-]+@[a-zA-Z0-9.-]+\.[a-zA-Z]\x7b2,\x7d$`
of `get_user_from_header`.  Neither character class contains `@`, so a match
has exactly one `@`; the final group is all-alphabetic, so the dot before it
is necessarily the last dot of the domain — which justifies this direct
decomposition. -/
def validEmail (l : List Char) : Bool :=
  let local_part := l.takeWhile (fun c => c ≠ '@')
  match l.dropWhile (fun c => c ≠ '@') with
  | [] => false
  | _ :: domain =>
    !domain.contains '@'
    && !local_part.isEmpty && local_part.all isEmailLocalChar
    && domain.contains '.'
    && (let tld := (domain.reverse.takeWhile (fun c => c ≠ '.')).reverse
        let pre := domain.take (domain.length - (tld.length + 1))
        decide (2 ≤ tld.length) && tld.all Char.isAlpha
        && !pre.isEmpty && pre.all isEmailDomainChar)

/-- `get_user_from_header` from `backend/middleware/auth.py`: a falsy header
value yields `None`; otherwise strip, lowercase and validate against the email
pattern. -/
def get_user_from_header (header_value : Option String) : Option String :=
  match header_value with
  | none => none
  | some s =>
    if s = "" then none
    else
      let email := String.mk (pyLower (pyStrip s.data))
      if validEmail email.data then some email else none

/-- The settings fields `auth_middleware` reads.  An unset
`PROXY_SHARED_SECRET` is the empty (falsy) string. -/
structure MwSettings where
  DEBUG : Bool
  SKIP_HEADER_CHECK : Bool
  PROXY_SHARED_SECRET : String
  MOCK_USER_EMAIL : String

/-- Outcome of the middleware: an early JSON response with a status code, or
the request proceeding to `call_next` with the state it was given. -/
inductive MwOutcome where
  | reject (status : Nat)
  | proceed (user_email : Option String) (is_authenticated : Bool)
deriving DecidableEq

/-- Paths exempt from all auth: health check, OpenAPI schema and docs. -/
def is_exempt_path (path : String) : Bool :=
  path == "/api/health" || path == "/openapi.json"
    || str_startsWith path "/docs" || str_startsWith path "/redoc"

/-- Paths whose auth is handled by dependencies instead of the middleware. -/
def is_dependency_auth_path (path : String) : Bool :=
  str_startsWith path "/api-key" || str_startsWith path "/api-ml"

/-- `auth_middleware` from `backend/middleware/auth.py`.  `user_header` is the
value of the configured identity header (with the debug-mode `x-user-email`
fallback folded into the same value), `proxy_header` the value of the
configured shared-secret header. -/
def auth_middleware (st : MwSettings) (path : String)
    (user_header proxy_header : Option String) : MwOutcome :=
  if is_exempt_path path then MwOutcome.proceed none false
  else if is_dependency_auth_path path then MwOutcome.proceed none false
  else if st.DEBUG || st.SKIP_HEADER_CHECK then
    let truthy : Bool := match user_header with
      | some v => !(v == "")
      | none => false
    if truthy then
      match get_user_from_header user_header with
      | some email => MwOutcome.proceed (some email) true
      | none => MwOutcome.proceed (some st.MOCK_USER_EMAIL) true
    else MwOutcome.proceed (some st.MOCK_USER_EMAIL) true
  else
    let user_email := get_user_from_header user_header
    if st.PROXY_SHARED_SECRET ≠ "" then
      if proxy_header ≠ some st.PROXY_SHARED_SECRET then MwOutcome.reject 401
      else
        match user_email with
        | none => MwOutcome.reject 401
        | some e => MwOutcome.proceed (some e) true
    else
      match user_email with
      | none => MwOutcome.reject 500
      | some e => MwOutcome.proceed (some e) true

/-- Claim C6: header mode, non-debug.  A configured proxy shared secret that
the secret header does not exactly match fails 401 whatever the identity
header holds; a matching secret with no valid identity header fails 401; no
configured secret with no valid identity header is a 500 server
misconfiguration, not a client 401. -/
theorem claim_C6_header_mode (st : MwSettings) (path : String)
    (user_header proxy_header : Option String)
    (hex : is_exempt_path path = false) (hdep : is_dependency_auth_path path = false)
    (hdbg : st.DEBUG = false) (hskip : st.SKIP_HEADER_CHECK = false) :
    (st.PROXY_SHARED_SECRET ≠ "" → proxy_header ≠ some st.PROXY_SHARED_SECRET →
      auth_middleware st path user_header proxy_header = MwOutcome.reject 401)
    ∧ (st.PROXY_SHARED_SECRET ≠ "" → proxy_header = some st.PROXY_SHARED_SECRET →
      get_user_from_header user_header = none →
      auth_middleware st path user_header proxy_header = MwOutcome.reject 401)
    ∧ (st.PROXY_SHARED_SECRET = "" → get_user_from_header user_header = none →
      auth_middleware st path user_header proxy_header = MwOutcome.reject 500) := by
  refine ⟨?_, ?_, ?_⟩
  · intro hsec hmiss
    simp only [auth_middleware, hex, hdep, hdbg, hskip]
    rw [if_neg (by simp), if_neg (by simp), if_neg (by simp), if_pos hsec, if_pos hmiss]
  · intro hsec hmatch huser
    simp only [auth_middleware, hex, hdep, hdbg, hskip, huser]
    rw [if_neg (by simp), if_neg (by simp), if_neg (by simp), if_pos hsec,
      if_neg (by simp [hmatch])]
  · intro hsec huser
    simp only [auth_middleware, hex, hdep, hdbg, hskip, huser]
    rw [if_neg (by simp), if_neg (by simp), if_neg (by simp), if_neg (by simp [hsec])]

/-- Claim C6 witness: concrete configurations and headers for all three
rejection modes (note the first one carries a perfectly valid identity header
and is still rejected on the secret alone). -/
theorem claim_C6_header_mode_witness :
    auth_middleware ⟨false, false, "s3cret", "mock@example.com"⟩ "/api/projects"
      (some "user@example.com") (some "wrong") = MwOutcome.reject 401
    ∧ auth_middleware ⟨false, false, "s3cret", "mock@example.com"⟩ "/api/projects"
      (some "not-an-email") (some "s3cret") = MwOutcome.reject 401
    ∧ auth_middleware ⟨false, false, "", "mock@example.com"⟩ "/api/projects"
      none none = MwOutcome.reject 500 :=
  ⟨(claim_C6_header_mode ⟨false, false, "s3cret", "mock@example.com"⟩ "/api/projects"
      (some "user@example.com") (some "wrong") (by decide) (by decide) rfl rfl).1
      (by decide) (by decide),
   (claim_C6_header_mode ⟨false, false, "s3cret", "mock@example.com"⟩ "/api/projects"
      (some "not-an-email") (some "s3cret") (by decide) (by decide) rfl rfl).2.1
      (by decide) rfl (by decide),
   (claim_C6_header_mode ⟨false, false, "", "mock@example.com"⟩ "/api/projects"
      none none (by decide) (by decide) rfl rfl).2.2 rfl rfl⟩

/-! ## GroupMembershipOracle (`backend/core/group_auth.py`,
`backend/core/group_auth_helper.py`)

The module cache `_group_membership_cache` is a dict keyed by
`(user_email, group_id, debug_mode)`; it is modelled as an association list
with dict semantics (`cacheLookup`, `del` = `cacheErase`, assignment =
`cacheInsert`).  The pluggable development stub `_check_group_membership` is
the abstract parameter `check`; outcomes carry the updated cache and whether
the pluggable check was invoked, making the claims' "without invoking"
conditions observable. -/

/-- The settings fields the group-auth modules read:
`settings.DEBUG or settings.SKIP_HEADER_CHECK` is the debug/bypass mode. -/
structure AuthSettings where
  DEBUG : Bool
  SKIP_HEADER_CHECK : Bool

/-- `user_email.lower().strip()`. -/
def normalize_email (s : String) : String := String.mk (pyStrip (pyLower s.data))

/-- `group_id.strip()`. -/
def normalize_group (s : String) : String := String.mk (pyStrip s.data)

/-- `_CACHE_TTL = 300` seconds. -/
def CACHE_TTL : Int := 300

abbrev CacheKey := String × String × Bool

abbrev CacheVal := Bool × Int

abbrev Cache := List (CacheKey × CacheVal)

/-- Dict read: the value stored under a key, if present. -/
def cacheLookup : Cache → CacheKey → Option CacheVal
  | [], _ => none
  | kv :: rest, k => if kv.1 = k then some kv.2 else cacheLookup rest k

/-- Dict `del`: remove the entry stored under a key. -/
def cacheErase : Cache → CacheKey → Cache
  | [], _ => []
  | kv :: rest, k => if kv.1 = k then cacheErase rest k else kv :: cacheErase rest k

/-- Dict assignment `cache[key] = value`. -/
def cacheInsert (c : Cache) (k : CacheKey) (v : CacheVal) : Cache :=
  cacheErase c k ++ [(k, v)]

theorem mem_cacheErase (c : Cache) (k : CacheKey) (kv : CacheKey × CacheVal) :
    kv ∈ cacheErase c k ↔ kv ∈ c ∧ kv.1 ≠ k := by
  induction c with
  | nil => simp [cacheErase]
  | cons kv' rest ih =>
    by_cases h : kv'.1 = k
    · simp only [cacheErase, if_pos h, ih, List.mem_cons]
      constructor
      · rintro ⟨h1, h2⟩; exact ⟨Or.inr h1, h2⟩
      · rintro ⟨h1 | h1, h2⟩
        · exact absurd (h1 ▸ h) h2
        · exact ⟨h1, h2⟩
    · simp only [cacheErase, if_neg h, List.mem_cons, ih]
      constructor
      · rintro (rfl | ⟨h1, h2⟩)
        · exact ⟨Or.inl rfl, h⟩
        · exact ⟨Or.inr h1, h2⟩
      · rintro ⟨rfl | h1, h2⟩
        · exact Or.inl rfl
        · exact Or.inr ⟨h1, h2⟩

theorem cacheLookup_cacheInsert (c : Cache) (k : CacheKey) (v : CacheVal) :
    cacheLookup (cacheInsert c k v) k = some v := by
  simp only [cacheInsert]
  induction c with
  | nil => simp [cacheErase, cacheLookup]
  | cons kv rest ih =>
    by_cases h : kv.1 = k
    · simpa [cacheErase, h] using ih
    · simpa [cacheErase, h, cacheLookup] using ih

namespace GroupAuth

/-- `is_user_in_group` from `backend/core/group_auth.py` (the core check):
empty inputs are false; debug/bypass always allows; otherwise normalize and
ask the pluggable `_check_group_membership`.  The second component records
whether the pluggable check was invoked. -/
def is_user_in_group (check : String → String → Bool) (st : AuthSettings)
    (user_email group_id : String) : Bool × Bool :=
  if user_email = "" ∨ group_id = "" then (false, false)
  else if st.DEBUG || st.SKIP_HEADER_CHECK then (true, false)
  else (check (normalize_email user_email) (normalize_group group_id), true)

end GroupAuth

/-- Result of one cached lookup: the boolean answer, the cache afterwards, and
whether the pluggable check was invoked. -/
structure GroupCheckOutcome where
  result : Bool
  cache : Cache
  pluggable_invoked : Bool
deriving DecidableEq

namespace GroupAuthHelper

/-- `is_user_in_group` from `backend/core/group_auth_helper.py` (the cached
wrapper): empty inputs are false with no cache interaction; otherwise
normalize, build the `(email, group_id, debug_mode)` key, serve a cache entry
younger than the TTL, evict an expired entry, and on a miss invoke the core
check and store its result under the current time. -/
def is_user_in_group (check : String → String → Bool) (st : AuthSettings)
    (now : Int) (cache : Cache) (user_email group_id : String) : GroupCheckOutcome :=
  if user_email = "" ∨ group_id = "" then ⟨false, cache, false⟩
  else
    let e := normalize_email user_email
    let g := normalize_group group_id
    let debug_mode := st.DEBUG || st.SKIP_HEADER_CHECK
    let key : CacheKey := (e, g, debug_mode)
    match cacheLookup cache key with
    | some (m, t) =>
      if now - t < CACHE_TTL then ⟨m, cache, false⟩
      else
        let cache' := cacheErase cache key
        let r := GroupAuth.is_user_in_group check st e g
        ⟨r.1, cacheInsert cache' key (r.1, now), r.2⟩
    | none =>
      let r := GroupAuth.is_user_in_group check st e g
      ⟨r.1, cacheInsert cache key (r.1, now), r.2⟩

end GroupAuthHelper

/-- `clear_user_cache` from `backend/core/group_auth_helper.py`: collect the
keys whose email component equals the normalized email, then delete each. -/
def clear_user_cache (user_email : String) (cache : Cache) : Cache :=
  if user_email = "" then cache
  else
    let e := normalize_email user_email
    let keys_to_remove := (cache.map Prod.fst).filter (fun k => decide (k.1 = e))
    keys_to_remove.foldl cacheErase cache

/-- The counting loop of `get_cache_stats`: entries younger than the TTL count
as valid, the rest as expired. -/
def count_valid_expired (now : Int) : Cache → Nat × Nat
  | [] => (0, 0)
  | kv :: rest =>
    let p := count_valid_expired now rest
    if now - kv.2.2 < CACHE_TTL then (p.1 + 1, p.2) else (p.1, p.2 + 1)

/-- The dictionary `get_cache_stats` returns. -/
structure CacheStats where
  total_entries : Nat
  valid_entries : Nat
  expired_entries : Nat
  cache_ttl_seconds : Int
deriving DecidableEq

/-- `get_cache_stats` from `backend/core/group_auth_helper.py`: classify every
stored entry against the TTL at call time. -/
def get_cache_stats (cache : Cache) (now : Int) : CacheStats :=
  let p := count_valid_expired now cache
  ⟨cache.length, p.1, p.2, CACHE_TTL⟩

/-- Claim C7: in non-bypass mode, a cache entry for the (normalized) inputs
younger than the 300-second TTL is returned without invoking the pluggable
check and without touching the cache; an entry at or past the TTL is evicted,
the pluggable check is re-invoked and its result stored under the current
time — the expired entry's value is never returned. -/
theorem claim_C7_cache_ttl (check : String → String → Bool) (st : AuthSettings)
    (now t : Int) (cache : Cache) (user_email group_id : String) (m : Bool)
    (hdbg : (st.DEBUG || st.SKIP_HEADER_CHECK) = false)
    (he : user_email ≠ "") (hg : group_id ≠ "")
    (hne : normalize_email user_email = user_email)
    (hng : normalize_group group_id = group_id) :
    (cacheLookup cache (user_email, group_id, false) = some (m, t) →
      now - t < CACHE_TTL →
      GroupAuthHelper.is_user_in_group check st now cache user_email group_id
        = ⟨m, cache, false⟩)
    ∧ (cacheLookup cache (user_email, group_id, false) = some (m, t) →
      ¬ (now - t < CACHE_TTL) →
      GroupAuthHelper.is_user_in_group check st now cache user_email group_id
        = ⟨check user_email group_id,
           cacheInsert (cacheErase cache (user_email, group_id, false))
             (user_email, group_id, false) (check user_email group_id, now), true⟩
      ∧ cacheLookup (GroupAuthHelper.is_user_in_group check st now cache
           user_email group_id).cache (user_email, group_id, false)
          = some (check user_email group_id, now)) := by
  constructor
  · intro hl hfresh
    simp only [GroupAuthHelper.is_user_in_group, hne, hng, hdbg]
    rw [if_neg (by simp [he, hg]), hl]
    simp [hfresh]
  · intro hl hstale
    have h1 : GroupAuthHelper.is_user_in_group check st now cache user_email group_id
        = ⟨check user_email group_id,
           cacheInsert (cacheErase cache (user_email, group_id, false))
             (user_email, group_id, false) (check user_email group_id, now), true⟩ := by
      simp only [GroupAuthHelper.is_user_in_group, hne, hng, hdbg]
      rw [if_neg (by simp [he, hg]), hl]
      simp only [if_neg hstale]
      simp only [GroupAuth.is_user_in_group, hne, hng, hdbg]
      rw [if_neg (by simp [he, hg])]
      simp
    refine ⟨h1, ?_⟩
    rw [h1]
    exact cacheLookup_cacheInsert _ _ _

/-- Claim C7 witness: a fresh hit at `now = 100` on an entry recorded at `0`,
and the same entry expired at `now = 400`. -/
theorem claim_C7_cache_ttl_witness :
    GroupAuthHelper.is_user_in_group (fun _ _ => false) ⟨false, false⟩ 100
      [(("a@b.c", "g", false), (true, 0))] "a@b.c" "g"
      = ⟨true, [(("a@b.c", "g", false), (true, 0))], false⟩
    ∧ GroupAuthHelper.is_user_in_group (fun _ _ => false) ⟨false, false⟩ 400
      [(("a@b.c", "g", false), (true, 0))] "a@b.c" "g"
      = ⟨false,
         cacheInsert (cacheErase [(("a@b.c", "g", false), (true, 0))] ("a@b.c", "g", false))
           ("a@b.c", "g", false) (false, 400), true⟩ :=
  ⟨(claim_C7_cache_ttl (fun _ _ => false) ⟨false, false⟩ 100 0
      [(("a@b.c", "g", false), (true, 0))] "a@b.c" "g" true rfl
      (by decide) (by decide) (by decide) (by decide)).1 (by decide) (by decide),
   ((claim_C7_cache_ttl (fun _ _ => false) ⟨false, false⟩ 400 0
      [(("a@b.c", "g", false), (true, 0))] "a@b.c" "g" true rfl
      (by decide) (by decide) (by decide) (by decide)).2 (by decide) (by decide)).1⟩

/-- Claim C8 counterexample: in debug/bypass mode with non-empty inputs the
cached wrapper does consult the cache — starting from the empty cache it
returns true without invoking the pluggable check, but it writes the result
into the cache (the bypass flag is part of the stored key), so "without
consulting ... the cache" is false. -/
theorem claim_C8_counterexample :
    (GroupAuthHelper.is_user_in_group (fun _ _ => false) ⟨true, false⟩ 5 [] "a@b.c" "g").result
      = true
    ∧ (GroupAuthHelper.is_user_in_group (fun _ _ => false) ⟨true, false⟩ 5 [] "a@b.c"
        "g").pluggable_invoked = false
    ∧ (GroupAuthHelper.is_user_in_group (fun _ _ => false) ⟨true, false⟩ 5 [] "a@b.c"
        "g").cache ≠ [] := by
  refine ⟨by decide, by decide, by decide⟩

/-- Claim C8, amended: when debug/bypass is active, the core check returns
true for every non-empty email and group id without invoking the pluggable
check (and the core check never touches the cache); the cached wrapper also
returns true without invoking the pluggable check when the key is absent, but
it does consult the cache — it looks the normalized key up and stores the
result under it; empty email or group id still returns false immediately with
no cache interaction. -/
theorem claim_C8_debug_bypass (check : String → String → Bool) (st : AuthSettings)
    (now : Int) (cache : Cache) (user_email group_id : String) :
    ((st.DEBUG || st.SKIP_HEADER_CHECK) = true → user_email ≠ "" → group_id ≠ "" →
      GroupAuth.is_user_in_group check st user_email group_id = (true, false))
    ∧ ((st.DEBUG || st.SKIP_HEADER_CHECK) = true → user_email ≠ "" → group_id ≠ "" →
      normalize_email user_email ≠ "" → normalize_group group_id ≠ "" →
      cacheLookup cache (normalize_email user_email, normalize_group group_id, true)
        = none →
      GroupAuthHelper.is_user_in_group check st now cache user_email group_id
        = ⟨true,
           cacheInsert cache (normalize_email user_email, normalize_group group_id, true)
             (true, now), false⟩)
    ∧ GroupAuthHelper.is_user_in_group check st now cache "" group_id
        = ⟨false, cache, false⟩
    ∧ GroupAuthHelper.is_user_in_group check st now cache user_email ""
        = ⟨false, cache, false⟩ := by
  refine ⟨?_, ?_, ?_, ?_⟩
  · intro hdbg he hg
    simp only [GroupAuth.is_user_in_group, hdbg]
    rw [if_neg (by simp [he, hg])]
    simp
  · intro hdbg he hg hne hng hmiss
    simp only [GroupAuthHelper.is_user_in_group, hdbg]
    rw [if_neg (by simp [he, hg]), hmiss]
    simp only [GroupAuth.is_user_in_group, hdbg]
    rw [if_neg (by simp [hne, hng])]
    simp
  · simp [GroupAuthHelper.is_user_in_group]
  · simp [GroupAuthHelper.is_user_in_group]

/-- Claim C8 witness for the amended statement. -/
theorem claim_C8_debug_bypass_witness :
    GroupAuth.is_user_in_group (fun _ _ => false) ⟨true, false⟩ "a@b.c" "g" = (true, false)
    ∧ GroupAuthHelper.is_user_in_group (fun _ _ => false) ⟨true, false⟩ 5 [] "a@b.c" "g"
        = ⟨true, cacheInsert [] (normalize_email "a@b.c", normalize_group "g", true)
            (true, 5), false⟩
    ∧ GroupAuthHelper.is_user_in_group (fun _ _ => false) ⟨true, false⟩ 5 [] "" "g"
        = ⟨false, [], false⟩
    ∧ GroupAuthHelper.is_user_in_group (fun _ _ => false) ⟨true, false⟩ 5 [] "a@b.c" ""
        = ⟨false, [], false⟩ :=
  ⟨(claim_C8_debug_bypass (fun _ _ => false) ⟨true, false⟩ 5 [] "a@b.c" "g").1 rfl
      (by decide) (by decide),
   (claim_C8_debug_bypass (fun _ _ => false) ⟨true, false⟩ 5 [] "a@b.c" "g").2.1 rfl
      (by decide) (by decide) (by decide) (by decide) (by decide),
   (claim_C8_debug_bypass (fun _ _ => false) ⟨true, false⟩ 5 [] "a@b.c" "g").2.2.1,
   (claim_C8_debug_bypass (fun _ _ => false) ⟨true, false⟩ 5 [] "a@b.c" "g").2.2.2⟩

theorem mem_foldl_cacheErase (keys : List CacheKey) (cache : Cache)
    (kv : CacheKey × CacheVal) :
    kv ∈ keys.foldl cacheErase cache ↔ kv ∈ cache ∧ ∀ k ∈ keys, kv.1 ≠ k := by
  induction keys generalizing cache with
  | nil => simp
  | cons k ks ih =>
    simp only [List.foldl_cons, ih, mem_cacheErase, List.forall_mem_cons]
    tauto

/-- Claim C9: `clear_user_cache` removes exactly the entries whose email
component equals the normalized email, across every group id and both
bypass-flag values, and leaves every other entry in place; an empty email
removes nothing. -/
theorem claim_C9_clear_user_cache :
    (∀ cache, clear_user_cache "" cache = cache)
    ∧ (∀ (user_email : String) (cache : Cache) (kv : CacheKey × CacheVal),
        user_email ≠ "" →
        (kv ∈ clear_user_cache user_email cache ↔
          kv ∈ cache ∧ kv.1.1 ≠ normalize_email user_email)) := by
  constructor
  · intro cache
    simp [clear_user_cache]
  · intro user_email cache kv he
    simp only [clear_user_cache]
    rw [if_neg he, mem_foldl_cacheErase]
    constructor
    · rintro ⟨h1, h2⟩
      refine ⟨h1, fun hcontra => ?_⟩
      exact h2 kv.1 (List.mem_filter.mpr
        ⟨List.mem_map_of_mem Prod.fst h1, by simp [hcontra]⟩) rfl
    · rintro ⟨h1, h2⟩
      refine ⟨h1, fun k hk heq => ?_⟩
      have := (List.mem_filter.mp hk).2
      apply h2
      rw [heq]
      exact of_decide_eq_true this

/-- Claim C9 witness: a two-user cache; clearing one user removes that user's
entry (any group, any bypass flag) and keeps the other user's. -/
theorem claim_C9_clear_user_cache_witness :
    clear_user_cache "" [(("u@x.y", "g1", false), (true, 0))]
      = [(("u@x.y", "g1", false), (true, 0))]
    ∧ ((("v@x.y", "g2", true), (false, 3))
        ∈ clear_user_cache "U@x.y "
          [(("u@x.y", "g1", false), (true, 0)), (("v@x.y", "g2", true), (false, 3))]
      ↔ (("v@x.y", "g2", true), (false, 3))
          ∈ ([(("u@x.y", "g1", false), (true, 0)),
              (("v@x.y", "g2", true), (false, 3))] : Cache)
        ∧ "v@x.y" ≠ normalize_email "U@x.y ")
    ∧ ((("u@x.y", "g1", false), (true, 0))
        ∈ clear_user_cache "U@x.y "
          [(("u@x.y", "g1", false), (true, 0)), (("v@x.y", "g2", true), (false, 3))]
      ↔ (("u@x.y", "g1", false), (true, 0))
          ∈ ([(("u@x.y", "g1", false), (true, 0)),
              (("v@x.y", "g2", true), (false, 3))] : Cache)
        ∧ "u@x.y" ≠ normalize_email "U@x.y ") :=
  ⟨claim_C9_clear_user_cache.1 [(("u@x.y", "g1", false), (true, 0))],
   claim_C9_clear_user_cache.2 "U@x.y "
     [(("u@x.y", "g1", false), (true, 0)), (("v@x.y", "g2", true), (false, 3))]
     ((("v@x.y", "g2", true), (false, 3))) (by decide),
   claim_C9_clear_user_cache.2 "U@x.y "
     [(("u@x.y", "g1", false), (true, 0)), (("v@x.y", "g2", true), (false, 3))]
     ((("u@x.y", "g1", false), (true, 0))) (by decide)⟩

theorem count_valid_expired_spec (now : Int) : ∀ cache : Cache,
    (count_valid_expired now cache).1
      = (cache.filter (fun kv => decide (now - kv.2.2 < CACHE_TTL))).length
    ∧ (count_valid_expired now cache).2
      = (cache.filter (fun kv => !decide (now - kv.2.2 < CACHE_TTL))).length
  | [] => by simp [count_valid_expired]
  | kv :: rest => by
    have ih := count_valid_expired_spec now rest
    by_cases h : now - kv.2.2 < CACHE_TTL
    · simp [count_valid_expired, h, ih.1, ih.2, List.filter_cons]
    · simp [count_valid_expired, h, ih.1, ih.2, List.filter_cons]

theorem count_valid_expired_sum (now : Int) : ∀ cache : Cache,
    (count_valid_expired now cache).1 + (count_valid_expired now cache).2 = cache.length
  | [] => rfl
  | kv :: rest => by
    have ih := count_valid_expired_sum now rest
    by_cases h : now - kv.2.2 < CACHE_TTL <;> simp [count_valid_expired, h] <;> omega

/-- Claim C10: `get_cache_stats` classifies each entry as valid or expired by
comparing its age to the TTL at call time (it reads the cache and nothing
else — the embedding is a pure function of the cache), so the returned counts
always satisfy `total_entries = valid_entries + expired_entries`. -/
theorem claim_C10_cache_stats (cache : Cache) (now : Int) :
    (get_cache_stats cache now).total_entries
      = (get_cache_stats cache now).valid_entries
        + (get_cache_stats cache now).expired_entries
    ∧ (get_cache_stats cache now).valid_entries
      = (cache.filter (fun kv => decide (now - kv.2.2 < CACHE_TTL))).length
    ∧ (get_cache_stats cache now).expired_entries
      = (cache.filter (fun kv => !decide (now - kv.2.2 < CACHE_TTL))).length := by
  have hs := count_valid_expired_spec now cache
  refine ⟨?_, hs.1, hs.2⟩
  have hsum := count_valid_expired_sum now cache
  simp only [get_cache_stats]
  omega
